import Mathlib

/-
Shallow embedding of the reserve-fund simulation workbook (src/workbook.py).

Conventions:
* Python floats are modelled as exact rationals (ℚ); all formulas in the
  source are field arithmetic, so this is the idealised real-number reading
  the spec itself uses.
* The module-level globals (STARTING_BALANCE, MONTHLY_FEES, PERIOD, rate
  percentages, MODEL_ITEMS, ...) form the configuration bundle that the spec
  treats as external input; they are gathered in a `Config` record and the
  source's concrete values are `sourceConfig`.
* Year offsets, recurrence intervals and the horizon are ℕ (the spec requires
  them nonnegative); calendar years are ℤ.
* Python's `float('inf')` initial value of `min_balance` is modelled as
  `Option ℚ` with `none` standing for +∞ (`optionMin`, `optionLe`).
* ℚ division by zero yields 0 in Lean; the source would raise instead.  Every
  theorem that relies on a division keeps hypotheses making the denominator
  nonzero, so the two semantics agree on all claims below.
* The source memoizes `calculate_yearly_expenses` in a function attribute;
  per the spec this caching is not observable, so the embedding simply calls
  the scheduler directly.
-/

namespace ReserveFunds

/-- An entry of `MODEL_ITEMS` (an ExpenseItem of the spec): `redundancy` is the
recurrence interval in years, `remaining_life` the first-occurrence year
offset. -/
structure ModelItem where
  name : String
  redundancy : ℕ
  remaining_life : ℕ
  cost : ℚ
  is_sirs : Bool
  type : String
deriving DecidableEq

/-- A detailed scheduled occurrence as stored in `spending_data`
(workbook.py lines 115-122). -/
structure SpendingItem where
  name : String
  cost : ℚ
  year : ℕ
  redundancy_at : ℕ
  type : String
  is_sirs : Bool
deriving DecidableEq

/-- A loan ledger entry (workbook.py lines 425-429). -/
structure Loan where
  principal : ℚ
  start_year : ℤ
  term : ℕ
deriving DecidableEq

/-- The module-level configuration globals of workbook.py, treated as the
input configuration bundle (spec section 6). -/
structure Config where
  starting_balance : ℚ
  monthly_fees : ℚ
  housing : ℚ
  fiscal_year : ℤ
  period : ℕ
  inflation_rate : ℚ
  loan_threshold_percentage : ℚ
  loan_rate_percentage : ℚ
  loan_term_years_model : ℕ
  safety_net_percentage : ℚ
  optimize_flag : Bool
  min_reserve_balance : ℚ
  optimization_tolerance : ℚ
  model_items : List ModelItem
deriving DecidableEq

/-- The occurrence count computed at workbook.py lines 99-104: one for a
one-time item, `(H - first) // k + 1` for a recurring one. -/
def itemRedundancies (period_years : ℕ) (it : ModelItem) : ℕ :=
  if it.redundancy ≤ 1 then 1
  else (period_years - it.remaining_life) / it.redundancy + 1

/-- The `(occurrence_year, occurrence_index)` pairs the scheduler loop
(workbook.py lines 107-122) emits for one item: index `i` ranges over
`range redundancies`, the year is `remaining_life + i * redundancy`, and the
`occurrence_year < period_years` guard drops out-of-window terms.  An item
with `remaining_life ≥ period_years` is skipped (line 95). -/
def itemOccurrencePairs (period_years : ℕ) (it : ModelItem) : List (ℕ × ℕ) :=
  if period_years ≤ it.remaining_life then []
  else ((List.range (itemRedundancies period_years it)).map
      (fun i => (it.remaining_life + i * it.redundancy, i))).filter
      (fun p => p.1 < period_years)

/-- The year offsets at which the scheduler emits occurrences of one item. -/
def itemOccurrences (period_years : ℕ) (it : ModelItem) : List ℕ :=
  (itemOccurrencePairs period_years it).map (fun p => p.1)

/-- The detailed items the scheduler stores in `spending_data[y]`
(workbook.py lines 115-122), read off per year: the loop appends one
`SpendingItem` per emitted occurrence of each catalog item. -/
def spending_data_at (model_items : List ModelItem) (period_years y : ℕ) :
    List SpendingItem :=
  model_items.flatMap (fun it =>
    ((itemOccurrencePairs period_years it).filter (fun p => p.1 = y)).map
      (fun p =>
        { name := it.name, cost := it.cost, year := p.1, redundancy_at := p.2,
          type := it.type, is_sirs := it.is_sirs }))

/-- The per-year total `spendings[y]` (workbook.py line 112): the costs of all
occurrences placed in year `y`. -/
def spendings_at (model_items : List ModelItem) (period_years y : ℕ) : ℚ :=
  ((spending_data_at model_items period_years y).map (fun s => s.cost)).sum

/-- `calculate_yearly_expenses` (workbook.py lines 80-124); the unused
`start_year` parameter of the source is kept for fidelity. -/
def calculate_yearly_expenses (model_items : List ModelItem)
    (period_years : ℕ) (_start_year : ℤ) : List ℚ × List (List SpendingItem) :=
  ((List.range period_years).map (spendings_at model_items period_years),
   (List.range period_years).map (spending_data_at model_items period_years))

/-- The `.upper() == "LARGE"` category test (workbook.py line 159). -/
def isLargeType (s : String) : Bool := s.toUpper == "LARGE"

/-- One step of the accumulation loop of `get_expenses_with_loan_details`
(workbook.py lines 152-168); the accumulator is
`(total_expenses, large_expenses, loan_portion, cash_portion)`. -/
def expenseAcc (cfg : Config) (year_index : ℕ) (acc : ℚ × ℚ × ℚ × ℚ)
    (item_data : SpendingItem) : ℚ × ℚ × ℚ × ℚ :=
  let inflated_cost := item_data.cost * (1 + cfg.inflation_rate / 100) ^ year_index
  if isLargeType item_data.type then
    let loan_amount := inflated_cost * (cfg.loan_threshold_percentage / 100)
    (acc.1 + inflated_cost, acc.2.1 + inflated_cost, acc.2.2.1 + loan_amount,
     acc.2.2.2 + (inflated_cost - loan_amount))
  else
    (acc.1 + inflated_cost, acc.2.1, acc.2.2.1, acc.2.2.2 + inflated_cost)

/-- `get_expenses_with_loan_details` (workbook.py lines 127-170), returning
`(total_expenses, large_expenses, loan_portion, cash_portion)`. -/
def get_expenses_with_loan_details (cfg : Config) (year : ℤ) : ℚ × ℚ × ℚ × ℚ :=
  let year_index : ℤ := year - cfg.fiscal_year
  if 0 ≤ year_index ∧ year_index < (cfg.period : ℤ) then
    let idx := year_index.toNat
    (spending_data_at cfg.model_items cfg.period idx).foldl
      (expenseAcc cfg idx) (0, 0, 0, 0)
  else (0, 0, 0, 0)

/-- `calculate_monthly_loan_payment` (workbook.py lines 248-267). -/
def calculate_monthly_loan_payment (principal annual_interest_rate : ℚ)
    (loan_term_years : ℕ) : ℚ :=
  if principal = 0 ∨ annual_interest_rate = 0 then 0
  else
    let monthly_rate := annual_interest_rate / 100 / 12
    let number_of_payments := loan_term_years * 12
    principal * monthly_rate * (1 + monthly_rate) ^ number_of_payments /
      ((1 + monthly_rate) ^ number_of_payments - 1)

/-- `get_loan_payments` (workbook.py lines 270-279): annual payment is the
monthly payment times 12. -/
def get_loan_payments (principal annual_interest_rate : ℚ)
    (loan_term_years : ℕ) : ℚ :=
  calculate_monthly_loan_payment principal annual_interest_rate loan_term_years * 12

/-- `calculate_reserve_contribution_for_future_expenses` (workbook.py lines
330-344); `future_expenses_by_year` is the dict as a list of
`(year, (large_expenses, total_expenses))` entries. -/
def calculate_reserve_contribution_for_future_expenses (cfg : Config)
    (future_expenses_by_year : List (ℤ × ℚ × ℚ)) (current_year : ℤ) : ℚ :=
  future_expenses_by_year.foldl (fun acc e =>
    if current_year < e.1 ∧ 0 < e.2.1 then
      acc + e.2.1 * (cfg.loan_threshold_percentage / 100) /
        ((max (e.1 - current_year) 1 : ℤ) : ℚ)
    else acc) 0

/-- `calculate_loan_payments_for_year` (workbook.py lines 347-367). -/
def calculate_loan_payments_for_year (cfg : Config) (active_loans : List Loan)
    (year : ℤ) : ℚ :=
  active_loans.foldl (fun acc loan =>
    if loan.start_year ≤ year ∧ year < loan.start_year + (loan.term : ℤ) then
      acc + get_loan_payments loan.principal cfg.loan_rate_percentage loan.term
    else acc) 0

/-- `calculate_safety_net_target` (workbook.py lines 370-376). -/
def calculate_safety_net_target (cfg : Config)
    (base_maintenance future_expenses loan_repayments : ℚ) : ℚ :=
  (base_maintenance + future_expenses + loan_repayments) *
    (cfg.safety_net_percentage / 100)

/-- `calculate_safety_net_top_up` (workbook.py lines 379-384). -/
def calculate_safety_net_top_up (safety_net_target provisional_end_balance : ℚ) : ℚ :=
  max 0 (safety_net_target - provisional_end_balance)

/-- The per-year output row of the simulator (workbook.py lines 459-476). -/
structure YearRecord where
  year : ℤ
  opening_balance : ℚ
  base_maintenance : ℚ
  future_expenses_in_year : ℚ
  reserve_contribution : ℚ
  loan_repayments : ℚ
  collections_without_safety_net : ℚ
  provisional_end_balance : ℚ
  safety_net_target : ℚ
  safety_net_top_up : ℚ
  total_maintenance_collected : ℚ
  closing_balance : ℚ
  large_expenses : ℚ
  loan_portion : ℚ
  cash_portion : ℚ
  active_loans_count : ℕ
deriving DecidableEq

/-- Default record used with `List.getD` when reading a simulation row. -/
def dummyRecord : YearRecord :=
  { year := 0, opening_balance := 0, base_maintenance := 0,
    future_expenses_in_year := 0, reserve_contribution := 0,
    loan_repayments := 0, collections_without_safety_net := 0,
    provisional_end_balance := 0, safety_net_target := 0,
    safety_net_top_up := 0, total_maintenance_collected := 0,
    closing_balance := 0, large_expenses := 0, loan_portion := 0,
    cash_portion := 0, active_loans_count := 0 }

/-- The mutable state of the simulation loop of `simulate_with_monthly_fees`:
running balance (kept equal to `simulation_data[-1]["closing_balance"]`),
loan ledger, emitted rows, running minimum (`none` = the initial
`float('inf')`) and accumulated deficits. -/
structure SimState where
  balance : ℚ
  active_loans : List Loan
  data : List YearRecord
  min_balance : Option ℚ
  total_deficits : ℚ
deriving DecidableEq

/-- `min_balance = min(min_balance, closing_balance)` with `none` playing the
role of the initial `float('inf')`. -/
def optionMin (m : Option ℚ) (c : ℚ) : Option ℚ :=
  match m with
  | none => some c
  | some m0 => some (min m0 c)

/-- One year of `simulate_with_monthly_fees` (workbook.py lines 409-476),
given the opening balance, the ledger carried in, and the year offset `y`;
returns the emitted `YearRecord` together with the updated ledger. -/
def simYear (cfg : Config) (fut : List (ℤ × ℚ × ℚ)) (fees : ℚ)
    (opening_balance : ℚ) (loans0 : List Loan) (y : ℕ) : YearRecord × List Loan :=
  let year : ℤ := cfg.fiscal_year + y
  let base_maintenance :=
    fees * cfg.housing * 12 * (1 + cfg.inflation_rate / 100) ^ y
  let ed := get_expenses_with_loan_details cfg year
  let total_expenses := ed.1
  let large_expenses := ed.2.1
  let loan_portion := ed.2.2.1
  let cash_portion := ed.2.2.2
  let active_loans :=
    if 0 < loan_portion then
      loans0 ++ [{ principal := loan_portion, start_year := year,
                   term := cfg.loan_term_years_model }]
    else loans0
  let reserve_contribution :=
    calculate_reserve_contribution_for_future_expenses cfg fut year
  let loan_repayments := calculate_loan_payments_for_year cfg active_loans year
  let collections_without_safety_net :=
    base_maintenance + reserve_contribution + loan_repayments
  let provisional_end_balance :=
    opening_balance + collections_without_safety_net - total_expenses - loan_repayments
  let safety_net_target :=
    calculate_safety_net_target cfg base_maintenance total_expenses loan_repayments
  let safety_net_top_up :=
    calculate_safety_net_top_up safety_net_target provisional_end_balance
  let total_maintenance_collected :=
    collections_without_safety_net + safety_net_top_up
  let closing_balance :=
    opening_balance + total_maintenance_collected - total_expenses - loan_repayments
  ({ year := year, opening_balance := opening_balance,
     base_maintenance := base_maintenance,
     future_expenses_in_year := total_expenses,
     reserve_contribution := reserve_contribution,
     loan_repayments := loan_repayments,
     collections_without_safety_net := collections_without_safety_net,
     provisional_end_balance := provisional_end_balance,
     safety_net_target := safety_net_target,
     safety_net_top_up := safety_net_top_up,
     total_maintenance_collected := total_maintenance_collected,
     closing_balance := closing_balance,
     large_expenses := large_expenses,
     loan_portion := loan_portion,
     cash_portion := cash_portion,
     active_loans_count := active_loans.countP (fun l =>
       decide (l.start_year ≤ year ∧ year < l.start_year + (l.term : ℤ))) },
   active_loans)

/-- One iteration of the simulation loop: append the row, advance the balance,
update the running minimum and the deficit accumulator
(workbook.py lines 454-476). -/
def simStep (cfg : Config) (fut : List (ℤ × ℚ × ℚ)) (fees : ℚ)
    (st : SimState) (y : ℕ) : SimState :=
  let res := simYear cfg fut fees st.balance st.active_loans y
  { balance := res.1.closing_balance
    active_loans := res.2
    data := st.data ++ [res.1]
    min_balance := optionMin st.min_balance res.1.closing_balance
    total_deficits := st.total_deficits +
      (if res.1.closing_balance < cfg.min_reserve_balance then
        |res.1.closing_balance - cfg.min_reserve_balance|
      else 0) }

/-- The precomputed `future_expenses_by_year` dict (workbook.py lines
400-403): for each simulated year, `(year, (large_expenses, total_expenses))`. -/
def futureExpensesByYear (cfg : Config) : List (ℤ × ℚ × ℚ) :=
  (List.range cfg.period).map (fun (y : ℕ) =>
    let ed := get_expenses_with_loan_details cfg (cfg.fiscal_year + (y : ℤ))
    (cfg.fiscal_year + (y : ℤ), ed.2.1, ed.1))

/-- The initial simulation state: the configured starting balance, an empty
ledger, no rows, `min_balance = inf`, no deficits. -/
def initState (cfg : Config) : SimState :=
  { balance := cfg.starting_balance, active_loans := [], data := [],
    min_balance := none, total_deficits := 0 }

/-- The simulation loop run over the first `n` year offsets. -/
def runSim (cfg : Config) (fut : List (ℤ × ℚ × ℚ)) (fees : ℚ) (n : ℕ) : SimState :=
  (List.range n).foldl (simStep cfg fut fees) (initState cfg)

/-- `simulate_with_monthly_fees` (workbook.py lines 388-478), with the fee
override passed explicitly; returns `(data, min_balance, total_deficits)`. -/
def simulate_with_monthly_fees (cfg : Config) (fees : ℚ) :
    List YearRecord × Option ℚ × ℚ :=
  let st := runSim cfg (futureExpensesByYear cfg) fees cfg.period
  (st.data, st.min_balance, st.total_deficits)

/-- The feasibility test `min_balance >= MIN_RESERVE_BALANCE and
total_deficits <= OPTIMIZATION_TOLERANCE` (workbook.py lines 497 and 513);
`none` is `float('inf')` and passes the floor test. -/
def isFeasibleB (cfg : Config) (min_balance : Option ℚ) (total_deficits : ℚ) : Bool :=
  (match min_balance with
   | none => true
   | some m => decide (cfg.min_reserve_balance ≤ m)) &&
  decide (total_deficits ≤ cfg.optimization_tolerance)

/-- Run a full simulation at the given fee and test feasibility. -/
def simFeasible (cfg : Config) (fees : ℚ) : Bool :=
  let res := simulate_with_monthly_fees cfg fees
  isFeasibleB cfg res.2.1 res.2.2

/-- The bisection loop of `optimize_monthly_fees` (workbook.py lines 502-519):
`fuel` counts the remaining iterations (20 at the start); the loop stops when
the bracket width is at most 1.0; a feasible midpoint becomes the new upper
bound, an infeasible one the new lower bound. -/
def optLoop (cfg : Config) : ℕ → ℚ → ℚ → ℚ × ℚ
  | 0, lower_bound, upper_bound => (lower_bound, upper_bound)
  | fuel + 1, lower_bound, upper_bound =>
    if 1 < upper_bound - lower_bound then
      let mid_fees := (lower_bound + upper_bound) / 2
      if simFeasible cfg mid_fees then optLoop cfg fuel lower_bound mid_fees
      else optLoop cfg fuel mid_fees upper_bound
    else (lower_bound, upper_bound)

/-- `optimize_monthly_fees` (workbook.py lines 481-534): return the baseline
fee when optimization is disabled or the baseline is already feasible,
otherwise bisect `[0.5 * F0, 3.0 * F0]` and return the final upper bound. -/
def optimize_monthly_fees (cfg : Config) : ℚ :=
  if cfg.optimize_flag = false then cfg.monthly_fees
  else if simFeasible cfg cfg.monthly_fees then cfg.monthly_fees
  else
    (optLoop cfg 20 (cfg.monthly_fees * (1 / 2)) (cfg.monthly_fees * 3)).2

/-- The catalog `MODEL_ITEMS` of workbook.py lines 43-76. -/
def MODEL_ITEMS : List ModelItem :=
  [{ name := "Roof Replacement", redundancy := 20, remaining_life := 5,
     cost := 50000, is_sirs := false, type := "Large" },
   { name := "HVAC Maintenance", redundancy := 3, remaining_life := 1,
     cost := 5000, is_sirs := false, type := "Small" },
   { name := "Elevator Modernization", redundancy := 25, remaining_life := 15,
     cost := 75000, is_sirs := false, type := "Large" },
   { name := "Plumbing riser replacement", redundancy := 1, remaining_life := 22,
     cost := 80000, is_sirs := false, type := "Large" }]

/-- The concrete configuration of workbook.py (module-level globals). -/
def sourceConfig : Config :=
  { starting_balance := 0
    monthly_fees := 120000 / 12
    housing := 1
    fiscal_year := 2022
    period := 30
    inflation_rate := 5
    loan_threshold_percentage := 70
    loan_rate_percentage := 10
    loan_term_years_model := 5
    safety_net_percentage := 10
    optimize_flag := true
    min_reserve_balance := 0
    optimization_tolerance := 1000
    model_items := MODEL_ITEMS }

/-- The record emitted for year offset `y`: the simulation loop applies
`simYear` to the balance and ledger accumulated over the first `y` years. -/
def recAt (cfg : Config) (fut : List (ℤ × ℚ × ℚ)) (fees : ℚ) (y : ℕ) : YearRecord :=
  (simYear cfg fut fees (runSim cfg fut fees y).balance
    (runSim cfg fut fees y).active_loans y).1

/-- The loan (if any) issued in year offset `y`: one loan with principal
`loan_portion` whenever that portion is positive. -/
def loanForYear (cfg : Config) (y : ℕ) : List Loan :=
  let lp := (get_expenses_with_loan_details cfg (cfg.fiscal_year + y)).2.2.1
  if 0 < lp then
    [{ principal := lp, start_year := cfg.fiscal_year + y,
       term := cfg.loan_term_years_model }]
  else []

/-- The ledger after the first `n` years of the run: the loans issued in year
offsets `0, …, n-1`, in order of issuance (the ledger is append-only). -/
def ledgerUpTo (cfg : Config) (n : ℕ) : List Loan :=
  (List.range n).flatMap (loanForYear cfg)

theorem runSim_zero (cfg : Config) (fut : List (ℤ × ℚ × ℚ)) (fees : ℚ) :
    runSim cfg fut fees 0 = initState cfg := rfl

theorem runSim_succ (cfg : Config) (fut : List (ℤ × ℚ × ℚ)) (fees : ℚ) (n : ℕ) :
    runSim cfg fut fees (n + 1) =
      simStep cfg fut fees (runSim cfg fut fees n) n := by
  unfold runSim
  rw [List.range_succ, List.foldl_append]
  rfl

theorem simStep_data (cfg : Config) (fut : List (ℤ × ℚ × ℚ)) (fees : ℚ)
    (st : SimState) (y : ℕ) :
    (simStep cfg fut fees st y).data =
      st.data ++ [(simYear cfg fut fees st.balance st.active_loans y).1] := rfl

theorem simStep_balance (cfg : Config) (fut : List (ℤ × ℚ × ℚ)) (fees : ℚ)
    (st : SimState) (y : ℕ) :
    (simStep cfg fut fees st y).balance =
      (simYear cfg fut fees st.balance st.active_loans y).1.closing_balance := rfl

theorem simStep_loans (cfg : Config) (fut : List (ℤ × ℚ × ℚ)) (fees : ℚ)
    (st : SimState) (y : ℕ) :
    (simStep cfg fut fees st y).active_loans =
      (simYear cfg fut fees st.balance st.active_loans y).2 := rfl

theorem simStep_min (cfg : Config) (fut : List (ℤ × ℚ × ℚ)) (fees : ℚ)
    (st : SimState) (y : ℕ) :
    (simStep cfg fut fees st y).min_balance =
      optionMin st.min_balance
        (simYear cfg fut fees st.balance st.active_loans y).1.closing_balance := rfl

theorem simStep_deficits (cfg : Config) (fut : List (ℤ × ℚ × ℚ)) (fees : ℚ)
    (st : SimState) (y : ℕ) :
    (simStep cfg fut fees st y).total_deficits =
      st.total_deficits +
        (if (simYear cfg fut fees st.balance st.active_loans y).1.closing_balance <
            cfg.min_reserve_balance then
          |(simYear cfg fut fees st.balance st.active_loans y).1.closing_balance -
            cfg.min_reserve_balance|
        else 0) := rfl

theorem runSim_data (cfg : Config) (fut : List (ℤ × ℚ × ℚ)) (fees : ℚ) (n : ℕ) :
    (runSim cfg fut fees n).data = (List.range n).map (recAt cfg fut fees) := by
  induction n with
  | zero => rfl
  | succ n ih =>
    rw [runSim_succ, simStep_data, ih, List.range_succ, List.map_append]
    rfl

theorem runSim_balance_succ (cfg : Config) (fut : List (ℤ × ℚ × ℚ)) (fees : ℚ) (n : ℕ) :
    (runSim cfg fut fees (n + 1)).balance = (recAt cfg fut fees n).closing_balance := by
  rw [runSim_succ, simStep_balance]; rfl

/-- The ledger the loop has accumulated never depends on the fee level, the
balance or the future-expense table: after `n` years it holds exactly the
loans issued in the first `n` years. -/
theorem runSim_loans (cfg : Config) (fut : List (ℤ × ℚ × ℚ)) (fees : ℚ) (n : ℕ) :
    (runSim cfg fut fees n).active_loans = ledgerUpTo cfg n := by
  induction n with
  | zero => rfl
  | succ n ih =>
    rw [runSim_succ, simStep_loans]
    show (if 0 < (get_expenses_with_loan_details cfg (cfg.fiscal_year + n)).2.2.1 then
        (runSim cfg fut fees n).active_loans ++ [_] else (runSim cfg fut fees n).active_loans) = _
    rw [ih]
    unfold ledgerUpTo loanForYear
    rw [List.range_succ, List.flatMap_append]
    by_cases h : 0 < (get_expenses_with_loan_details cfg (cfg.fiscal_year + n)).2.2.1
    · simp only [if_pos h, List.flatMap_cons, List.flatMap_nil, List.append_nil]
    · simp only [if_neg h, List.flatMap_cons, List.flatMap_nil, List.append_nil]

theorem simData_eq (cfg : Config) (fees : ℚ) :
    (simulate_with_monthly_fees cfg fees).1 =
      (List.range cfg.period).map (recAt cfg (futureExpensesByYear cfg) fees) := by
  show (runSim cfg (futureExpensesByYear cfg) fees cfg.period).data = _
  exact runSim_data cfg (futureExpensesByYear cfg) fees cfg.period

theorem simData_length (cfg : Config) (fees : ℚ) :
    (simulate_with_monthly_fees cfg fees).1.length = cfg.period := by
  rw [simData_eq, List.length_map, List.length_range]

theorem simData_getElem (cfg : Config) (fees : ℚ) (y : ℕ) (hy : y < cfg.period) :
    (simulate_with_monthly_fees cfg fees).1[y]? =
      some (recAt cfg (futureExpensesByYear cfg) fees y) := by
  rw [simData_eq, List.getElem?_map, List.getElem?_range hy]
  rfl

theorem simData_getElem_inv (cfg : Config) (fees : ℚ) (y : ℕ) (r : YearRecord)
    (h : (simulate_with_monthly_fees cfg fees).1[y]? = some r) :
    y < cfg.period ∧ r = recAt cfg (futureExpensesByYear cfg) fees y := by
  have hy : y < cfg.period := by
    by_contra hy
    rw [List.getElem?_eq_none] at h
    · exact Option.noConfusion h
    · rw [simData_length]; omega
  refine ⟨hy, ?_⟩
  rw [simData_getElem cfg fees y hy] at h
  exact (Option.some_injective _ h).symm

theorem simData_mem_inv (cfg : Config) (fees : ℚ) (r : YearRecord)
    (h : r ∈ (simulate_with_monthly_fees cfg fees).1) :
    ∃ y < cfg.period, r = recAt cfg (futureExpensesByYear cfg) fees y := by
  rw [simData_eq, List.mem_map] at h
  obtain ⟨y, hy, hr⟩ := h
  exact ⟨y, List.mem_range.mp hy, hr.symm⟩

theorem recAt_year (cfg : Config) (fut : List (ℤ × ℚ × ℚ)) (fees : ℚ) (y : ℕ) :
    (recAt cfg fut fees y).year = cfg.fiscal_year + y := rfl

theorem recAt_opening (cfg : Config) (fut : List (ℤ × ℚ × ℚ)) (fees : ℚ) (y : ℕ) :
    (recAt cfg fut fees y).opening_balance = (runSim cfg fut fees y).balance := rfl

theorem recAt_base (cfg : Config) (fut : List (ℤ × ℚ × ℚ)) (fees : ℚ) (y : ℕ) :
    (recAt cfg fut fees y).base_maintenance =
      fees * cfg.housing * 12 * (1 + cfg.inflation_rate / 100) ^ y := rfl

theorem recAt_expenses (cfg : Config) (fut : List (ℤ × ℚ × ℚ)) (fees : ℚ) (y : ℕ) :
    (recAt cfg fut fees y).future_expenses_in_year =
      (get_expenses_with_loan_details cfg (cfg.fiscal_year + y)).1 := rfl

theorem recAt_rc (cfg : Config) (fut : List (ℤ × ℚ × ℚ)) (fees : ℚ) (y : ℕ) :
    (recAt cfg fut fees y).reserve_contribution =
      calculate_reserve_contribution_for_future_expenses cfg fut
        (cfg.fiscal_year + y) := rfl

theorem recAt_collections (cfg : Config) (fut : List (ℤ × ℚ × ℚ)) (fees : ℚ) (y : ℕ) :
    (recAt cfg fut fees y).collections_without_safety_net =
      (recAt cfg fut fees y).base_maintenance +
        (recAt cfg fut fees y).reserve_contribution +
        (recAt cfg fut fees y).loan_repayments := rfl

theorem recAt_provisional (cfg : Config) (fut : List (ℤ × ℚ × ℚ)) (fees : ℚ) (y : ℕ) :
    (recAt cfg fut fees y).provisional_end_balance =
      (recAt cfg fut fees y).opening_balance +
        (recAt cfg fut fees y).collections_without_safety_net -
        (recAt cfg fut fees y).future_expenses_in_year -
        (recAt cfg fut fees y).loan_repayments := rfl

theorem recAt_target (cfg : Config) (fut : List (ℤ × ℚ × ℚ)) (fees : ℚ) (y : ℕ) :
    (recAt cfg fut fees y).safety_net_target =
      calculate_safety_net_target cfg (recAt cfg fut fees y).base_maintenance
        (recAt cfg fut fees y).future_expenses_in_year
        (recAt cfg fut fees y).loan_repayments := rfl

theorem recAt_topup (cfg : Config) (fut : List (ℤ × ℚ × ℚ)) (fees : ℚ) (y : ℕ) :
    (recAt cfg fut fees y).safety_net_top_up =
      calculate_safety_net_top_up (recAt cfg fut fees y).safety_net_target
        (recAt cfg fut fees y).provisional_end_balance := rfl

theorem recAt_collected (cfg : Config) (fut : List (ℤ × ℚ × ℚ)) (fees : ℚ) (y : ℕ) :
    (recAt cfg fut fees y).total_maintenance_collected =
      (recAt cfg fut fees y).collections_without_safety_net +
        (recAt cfg fut fees y).safety_net_top_up := rfl

theorem recAt_closing (cfg : Config) (fut : List (ℤ × ℚ × ℚ)) (fees : ℚ) (y : ℕ) :
    (recAt cfg fut fees y).closing_balance =
      (recAt cfg fut fees y).opening_balance +
        (recAt cfg fut fees y).total_maintenance_collected -
        (recAt cfg fut fees y).future_expenses_in_year -
        (recAt cfg fut fees y).loan_repayments := rfl

/-- The loans used for year `y`'s repayments and active count: the carried
ledger plus the loan issued this year (if any). -/
theorem simYear_loans (cfg : Config) (fut : List (ℤ × ℚ × ℚ)) (fees : ℚ)
    (opening : ℚ) (loans0 : List Loan) (y : ℕ) :
    (simYear cfg fut fees opening loans0 y).2 = loans0 ++ loanForYear cfg y := by
  show (if 0 < (get_expenses_with_loan_details cfg (cfg.fiscal_year + y)).2.2.1 then
      loans0 ++ [_] else loans0) = _
  unfold loanForYear
  by_cases h : 0 < (get_expenses_with_loan_details cfg (cfg.fiscal_year + y)).2.2.1
  · rw [if_pos h, if_pos h]
  · rw [if_neg h, if_neg h, List.append_nil]

theorem recAt_repay (cfg : Config) (fut : List (ℤ × ℚ × ℚ)) (fees : ℚ) (y : ℕ) :
    (recAt cfg fut fees y).loan_repayments =
      calculate_loan_payments_for_year cfg (ledgerUpTo cfg (y + 1))
        (cfg.fiscal_year + y) := by
  have h1 : (recAt cfg fut fees y).loan_repayments =
      calculate_loan_payments_for_year cfg
        (simYear cfg fut fees (runSim cfg fut fees y).balance
          (runSim cfg fut fees y).active_loans y).2 (cfg.fiscal_year + y) := rfl
  rw [h1, simYear_loans, runSim_loans]
  unfold ledgerUpTo
  rw [List.range_succ, List.flatMap_append, List.flatMap_cons, List.flatMap_nil,
    List.append_nil]

theorem recAt_count (cfg : Config) (fut : List (ℤ × ℚ × ℚ)) (fees : ℚ) (y : ℕ) :
    (recAt cfg fut fees y).active_loans_count =
      (ledgerUpTo cfg (y + 1)).countP (fun l =>
        decide (l.start_year ≤ cfg.fiscal_year + (y : ℤ) ∧
          cfg.fiscal_year + (y : ℤ) < l.start_year + (l.term : ℤ))) := by
  have h1 : (recAt cfg fut fees y).active_loans_count =
      (simYear cfg fut fees (runSim cfg fut fees y).balance
          (runSim cfg fut fees y).active_loans y).2.countP (fun l =>
        decide (l.start_year ≤ cfg.fiscal_year + (y : ℤ) ∧
          cfg.fiscal_year + (y : ℤ) < l.start_year + (l.term : ℤ))) := rfl
  rw [h1, simYear_loans, runSim_loans]
  unfold ledgerUpTo
  rw [List.range_succ, List.flatMap_append, List.flatMap_cons, List.flatMap_nil,
    List.append_nil]

/-- Folding `acc + (if p e then f e else acc)` over a list is the sum of the
guarded terms; used to read the accumulation loops as explicit sums. -/
theorem foldl_guard_add {α : Type} (p : α → Prop) [DecidablePred p] (f : α → ℚ) :
    ∀ (l : List α) (a : ℚ),
      l.foldl (fun acc e => if p e then acc + f e else acc) a =
        a + (l.map (fun e => if p e then f e else 0)).sum := by
  intro l
  induction l with
  | nil => intro a; simp
  | cons x xs ih =>
    intro a
    rw [List.foldl_cons, List.map_cons, List.sum_cons, ih]
    by_cases h : p x
    · rw [if_pos h, if_pos h]; ring
    · rw [if_neg h, if_neg h]; ring

/-- The closing balance always equals the larger of the provisional end
balance and the safety-net target. -/
theorem add_max_zero_sub (a b : ℚ) : a + max 0 (b - a) = max a b := by
  rcases le_total b a with h | h
  · rw [max_eq_left (sub_nonpos.mpr h), max_eq_left h, add_zero]
  · rw [max_eq_right (sub_nonneg.mpr h), max_eq_right h]; ring

theorem recAt_closing_max (cfg : Config) (fut : List (ℤ × ℚ × ℚ)) (fees : ℚ) (y : ℕ) :
    (recAt cfg fut fees y).closing_balance =
      max (recAt cfg fut fees y).provisional_end_balance
        (recAt cfg fut fees y).safety_net_target := by
  rw [recAt_closing, recAt_collected, recAt_topup]
  unfold calculate_safety_net_top_up
  rw [recAt_provisional]
  set o := (recAt cfg fut fees y).opening_balance
  set c := (recAt cfg fut fees y).collections_without_safety_net
  set e := (recAt cfg fut fees y).future_expenses_in_year
  set l := (recAt cfg fut fees y).loan_repayments
  set t := (recAt cfg fut fees y).safety_net_target
  have h1 : o + (c + max 0 (t - (o + c - e - l))) - e - l =
      (o + c - e - l) + max 0 (t - (o + c - e - l)) := by ring
  rw [h1, add_max_zero_sub]

/-- Filtering `range R` by a predicate that holds exactly below `C ≤ R` yields
`range C`. -/
theorem filter_range_eq (p : ℕ → Bool) :
    ∀ R C : ℕ, C ≤ R → (∀ i, i < C → p i = true) →
      (∀ i, C ≤ i → i < R → p i = false) →
      (List.range R).filter p = List.range C := by
  intro R
  induction R with
  | zero =>
    intro C hC _ _
    have : C = 0 := Nat.le_zero.mp hC
    subst this
    rfl
  | succ R ih =>
    intro C hC h1 h2
    rw [List.range_succ, List.filter_append]
    by_cases hCR : C = R + 1
    · subst hCR
      have ha : (List.range R).filter p = List.range R :=
        List.filter_eq_self.mpr (fun a ha => h1 a (by
          have := List.mem_range.mp ha; omega))
      have hb : p R = true := h1 R (by omega)
      rw [ha, List.filter_cons, if_pos hb]
      exact (List.range_succ R).symm
    · have hC' : C ≤ R := by omega
      have ha := ih C hC' h1 (fun i hi hi' => h2 i hi (by omega))
      have hb : p R = false := h2 R hC' (by omega)
      rw [ha, List.filter_cons, if_neg (by rw [hb]; exact Bool.false_ne_true),
        List.filter_nil, List.append_nil]

/-- The number of indices `i` with `i * k < D` is the ceiling `⌈D/k⌉`,
written `(D + k - 1) / k`: membership characterisation. -/
theorem lt_ceil_div_iff (D k i : ℕ) (hk : 0 < k) (hD : 0 < D) :
    i < (D + k - 1) / k ↔ i * k < D := by
  have hq : k * (D / k) + D % k = D := Nat.div_add_mod D k
  have hq' : (D / k) * k + D % k = D := by rw [Nat.mul_comm (D / k) k]; exact hq
  have hr : D % k < k := Nat.mod_lt _ hk
  have hx : (D / k + 1) * k = (D / k) * k + k := by ring
  by_cases h0 : D % k = 0
  · have hD' : D + k - 1 = (k - 1) + (D / k) * k := by omega
    rw [hD', Nat.add_mul_div_right _ _ hk, Nat.div_eq_of_lt (by omega), Nat.zero_add]
    constructor
    · intro h
      have h1 : i * k < (D / k) * k := (Nat.mul_lt_mul_right hk).mpr h
      omega
    · intro h
      by_contra hcon
      have h1 : (D / k) * k ≤ i * k := Nat.mul_le_mul_right k (by omega)
      omega
  · have hD' : D + k - 1 = (D % k - 1) + (D / k + 1) * k := by omega
    rw [hD', Nat.add_mul_div_right _ _ hk, Nat.div_eq_of_lt (by omega), Nat.zero_add]
    constructor
    · intro h
      have hik : i * k ≤ (D / k) * k := Nat.mul_le_mul_right k (by omega)
      omega
    · intro h
      by_contra hcon
      have h1 : (D / k + 1) * k ≤ i * k := Nat.mul_le_mul_right k (by omega)
      omega

/-- The ceiling count never exceeds the loop bound `⌊D/k⌋ + 1` of the source. -/
theorem ceil_div_le (D k : ℕ) (hk : 0 < k) :
    (D + k - 1) / k ≤ D / k + 1 := by
  have h1 : D + k - 1 ≤ D + k := by omega
  calc (D + k - 1) / k ≤ (D + k) / k := Nat.div_le_div_right h1
    _ = D / k + 1 := by
        have := Nat.add_mul_div_right D 1 hk
        simpa using this

/-- When `k` does not divide `D` the ceiling agrees with the source's
`⌊D/k⌋ + 1`; when it does, it is one less. -/
theorem ceil_div_eq (D k : ℕ) (hk : 0 < k) (hD : 0 < D) :
    (¬ k ∣ D → (D + k - 1) / k = D / k + 1) ∧
    (k ∣ D → (D + k - 1) / k = D / k) := by
  have hq : k * (D / k) + D % k = D := Nat.div_add_mod D k
  have hq' : (D / k) * k + D % k = D := by rw [Nat.mul_comm (D / k) k]; exact hq
  have hr : D % k < k := Nat.mod_lt _ hk
  have hx : (D / k + 1) * k = (D / k) * k + k := by ring
  constructor
  · intro hnd
    have h0 : D % k ≠ 0 := fun h => hnd (Nat.dvd_iff_mod_eq_zero.mpr h)
    have hD' : D + k - 1 = (D % k - 1) + (D / k + 1) * k := by omega
    rw [hD', Nat.add_mul_div_right _ _ hk, Nat.div_eq_of_lt (by omega)]
    omega
  · intro hd
    have h0 : D % k = 0 := Nat.dvd_iff_mod_eq_zero.mp hd
    have hD' : D + k - 1 = (k - 1) + (D / k) * k := by omega
    rw [hD', Nat.add_mul_div_right _ _ hk, Nat.div_eq_of_lt (by omega)]
    omega

/-- C1 (amended): for a recurring item (interval `k > 1`, first offset
`first < H`) the scheduler emits occurrences exactly at `first + i*k` for
`i = 0, 1, …` while the offset stays below `H`; the emitted count is the
ceiling `⌈(H - first)/k⌉ = (H - first + k - 1) / k`, which agrees with the
spec's `⌊(H - first)/k⌋ + 1` exactly when `k` does not divide `H - first`;
when `k` divides `H - first`, the `< H` guard drops the loop's final term and
the emitted count is `⌊(H - first)/k⌋`. -/
theorem C1_scheduler_recurring (H : ℕ) (it : ModelItem)
    (hk : 1 < it.redundancy) (hf : it.remaining_life < H) :
    itemOccurrences H it =
      (List.range ((H - it.remaining_life + it.redundancy - 1) / it.redundancy)).map
        (fun i => it.remaining_life + i * it.redundancy) ∧
    (itemOccurrences H it).length =
      (H - it.remaining_life + it.redundancy - 1) / it.redundancy ∧
    (¬ it.redundancy ∣ (H - it.remaining_life) →
      (itemOccurrences H it).length =
        (H - it.remaining_life) / it.redundancy + 1) ∧
    (it.redundancy ∣ (H - it.remaining_life) →
      (itemOccurrences H it).length =
        (H - it.remaining_life) / it.redundancy) := by
  have hk0 : 0 < it.redundancy := by omega
  have hD0 : 0 < H - it.remaining_life := by omega
  have hmain : itemOccurrences H it =
      (List.range ((H - it.remaining_life + it.redundancy - 1) / it.redundancy)).map
        (fun i => it.remaining_life + i * it.redundancy) := by
    unfold itemOccurrences itemOccurrencePairs itemRedundancies
    rw [if_neg (by omega : ¬ H ≤ it.remaining_life),
      if_neg (by omega : ¬ it.redundancy ≤ 1)]
    rw [List.filter_map, List.map_map]
    rw [filter_range_eq _ ((H - it.remaining_life) / it.redundancy + 1)
      ((H - it.remaining_life + it.redundancy - 1) / it.redundancy)
      (ceil_div_le _ _ hk0)
      (fun i hi => by
        have h1 := (lt_ceil_div_iff (H - it.remaining_life) it.redundancy i hk0 hD0).mp hi
        simp only [Function.comp]
        exact decide_eq_true_eq.mpr (by omega))
      (fun i hi hi' => by
        have h1 : ¬ i * it.redundancy < H - it.remaining_life := fun hcon =>
          absurd ((lt_ceil_div_iff (H - it.remaining_life) it.redundancy i hk0 hD0).mpr hcon)
            (by omega)
        simp only [Function.comp]
        exact decide_eq_false (by omega))]
    rfl
  refine ⟨hmain, ?_, ?_, ?_⟩
  · rw [hmain, List.length_map, List.length_range]
  · intro hnd
    rw [hmain, List.length_map, List.length_range]
    exact (ceil_div_eq _ _ hk0 hD0).1 hnd
  · intro hd
    rw [hmain, List.length_map, List.length_range]
    exact (ceil_div_eq _ _ hk0 hD0).2 hd

/-- A recurring item whose interval divides the remaining window:
`first = 0`, `k = 5`, `H = 10`. -/
def c1Item : ModelItem :=
  { name := "X", redundancy := 5, remaining_life := 0, cost := 1,
    is_sirs := false, type := "Small" }

/-- C1 counterexample: for `first = 0`, `k = 5`, `H = 10` the scheduler emits
only the 2 occurrences `[0, 5]` (the loop's third candidate `10` fails the
`< H` guard), while the claim's formula `⌊(H - first)/k⌋ + 1` gives 3. -/
theorem C1_counterexample :
    ¬ ((itemOccurrences 10 c1Item).length =
        (10 - c1Item.remaining_life) / c1Item.redundancy + 1) := by decide

/-- A recurring item where the interval does not divide the window:
`first = 2`, `k = 5`, `H = 13`. -/
def c1WitnessItem : ModelItem :=
  { name := "W", redundancy := 5, remaining_life := 2, cost := 1,
    is_sirs := false, type := "Small" }

theorem C1_witness :
    1 < c1WitnessItem.redundancy ∧ c1WitnessItem.remaining_life < 13 ∧
    (itemOccurrences 13 c1WitnessItem =
      (List.range ((13 - c1WitnessItem.remaining_life + c1WitnessItem.redundancy - 1) /
          c1WitnessItem.redundancy)).map
        (fun i => c1WitnessItem.remaining_life + i * c1WitnessItem.redundancy) ∧
    (itemOccurrences 13 c1WitnessItem).length =
      (13 - c1WitnessItem.remaining_life + c1WitnessItem.redundancy - 1) /
        c1WitnessItem.redundancy ∧
    (¬ c1WitnessItem.redundancy ∣ (13 - c1WitnessItem.remaining_life) →
      (itemOccurrences 13 c1WitnessItem).length =
        (13 - c1WitnessItem.remaining_life) / c1WitnessItem.redundancy + 1) ∧
    (c1WitnessItem.redundancy ∣ (13 - c1WitnessItem.remaining_life) →
      (itemOccurrences 13 c1WitnessItem).length =
        (13 - c1WitnessItem.remaining_life) / c1WitnessItem.redundancy)) :=
  ⟨by decide, by decide, C1_scheduler_recurring 13 c1WitnessItem (by decide) (by decide)⟩

theorem isLargeType_Large : isLargeType "Large" = true := by
  simp only [isLargeType, String.toUpper, String.map_eq]
  decide

theorem isLargeType_Small : isLargeType "Small" = false := by
  simp only [isLargeType, String.toUpper, String.map_eq]
  decide

theorem simData_mem (cfg : Config) (fees : ℚ) (y : ℕ) (hy : y < cfg.period) :
    recAt cfg (futureExpensesByYear cfg) fees y ∈
      (simulate_with_monthly_fees cfg fees).1 := by
  rw [simData_eq]
  exact List.mem_map_of_mem _ (List.mem_range.mpr hy)

/-- A small two-year configuration with an empty catalog, used to instantiate
the per-year theorems at concrete inputs. -/
def demoConfig : Config :=
  { starting_balance := 5, monthly_fees := 10, housing := 1, fiscal_year := 0,
    period := 2, inflation_rate := 0, loan_threshold_percentage := 70,
    loan_rate_percentage := 10, loan_term_years_model := 5,
    safety_net_percentage := 10, optimize_flag := true, min_reserve_balance := 0,
    optimization_tolerance := 0, model_items := [] }

/-- C5: the amortizer returns 0 when the principal or the annual rate is 0
(including the zero-rate nonzero-principal case); for positive principal,
rate and term it returns `P·i·(1+i)^n / ((1+i)^n - 1)` with `i = rate/100/12`
and `n = term·12` (the denominator being nonzero); and the annual payment is
always the monthly payment times 12. -/
theorem C5_loan_payment (P rate : ℚ) (term : ℕ)
    (hP : 0 < P) (hr : 0 < rate) (ht : 0 < term) :
    (∀ (r : ℚ) (t : ℕ), calculate_monthly_loan_payment 0 r t = 0) ∧
    (∀ (p : ℚ) (t : ℕ), calculate_monthly_loan_payment p 0 t = 0) ∧
    (1 + rate / 100 / 12) ^ (term * 12) - 1 ≠ 0 ∧
    calculate_monthly_loan_payment P rate term =
      P * (rate / 100 / 12) * (1 + rate / 100 / 12) ^ (term * 12) /
        ((1 + rate / 100 / 12) ^ (term * 12) - 1) ∧
    (∀ (p r : ℚ) (t : ℕ),
      get_loan_payments p r t = calculate_monthly_loan_payment p r t * 12) := by
  refine ⟨?_, ?_, ?_, ?_, ?_⟩
  · intro r t
    unfold calculate_monthly_loan_payment
    rw [if_pos (Or.inl rfl)]
  · intro p t
    unfold calculate_monthly_loan_payment
    rw [if_pos (Or.inr rfl)]
  · have h1 : (1 : ℚ) < 1 + rate / 100 / 12 := by linarith [hr]
    have h2 : (1 : ℚ) < (1 + rate / 100 / 12) ^ (term * 12) :=
      one_lt_pow₀ h1 (by omega)
    exact sub_ne_zero.mpr (ne_of_gt h2)
  · unfold calculate_monthly_loan_payment
    rw [if_neg (by push_neg; exact ⟨ne_of_gt hP, ne_of_gt hr⟩)]
  · intro p r t
    rfl

theorem C5_witness :
    0 < (1000 : ℚ) ∧ 0 < (6 : ℚ) ∧ 0 < 10 ∧
    ((∀ (r : ℚ) (t : ℕ), calculate_monthly_loan_payment 0 r t = 0) ∧
    (∀ (p : ℚ) (t : ℕ), calculate_monthly_loan_payment p 0 t = 0) ∧
    (1 + (6 : ℚ) / 100 / 12) ^ (10 * 12) - 1 ≠ 0 ∧
    calculate_monthly_loan_payment 1000 6 10 =
      1000 * ((6 : ℚ) / 100 / 12) * (1 + (6 : ℚ) / 100 / 12) ^ (10 * 12) /
        ((1 + (6 : ℚ) / 100 / 12) ^ (10 * 12) - 1) ∧
    (∀ (p r : ℚ) (t : ℕ),
      get_loan_payments p r t = calculate_monthly_loan_payment p r t * 12)) :=
  ⟨by norm_num, by norm_num, by norm_num,
   C5_loan_payment 1000 6 10 (by norm_num) (by norm_num) (by norm_num)⟩

/-- C6: in every simulation run the closing balance recorded for a year is
the opening balance recorded for the next year, and the opening balance of
the first year is the configured starting balance. -/
theorem C6_balance_chain (cfg : Config) (fees : ℚ) (y : ℕ) (r r' r0 : YearRecord)
    (h : (simulate_with_monthly_fees cfg fees).1[y]? = some r)
    (h' : (simulate_with_monthly_fees cfg fees).1[y + 1]? = some r')
    (h0 : (simulate_with_monthly_fees cfg fees).1[0]? = some r0) :
    r'.opening_balance = r.closing_balance ∧
    r0.opening_balance = cfg.starting_balance := by
  obtain ⟨hy, hr⟩ := simData_getElem_inv cfg fees y r h
  obtain ⟨hy', hr'⟩ := simData_getElem_inv cfg fees (y + 1) r' h'
  obtain ⟨hy0, hr0⟩ := simData_getElem_inv cfg fees 0 r0 h0
  subst hr
  subst hr'
  subst hr0
  constructor
  · rw [recAt_opening, runSim_balance_succ]
  · rw [recAt_opening]
    rfl

theorem C6_witness :
    (simulate_with_monthly_fees demoConfig 10).1[0]? =
        some (recAt demoConfig (futureExpensesByYear demoConfig) 10 0) ∧
    (simulate_with_monthly_fees demoConfig 10).1[0 + 1]? =
        some (recAt demoConfig (futureExpensesByYear demoConfig) 10 1) ∧
    ((recAt demoConfig (futureExpensesByYear demoConfig) 10 1).opening_balance =
        (recAt demoConfig (futureExpensesByYear demoConfig) 10 0).closing_balance ∧
      (recAt demoConfig (futureExpensesByYear demoConfig) 10 0).opening_balance =
        demoConfig.starting_balance) :=
  ⟨simData_getElem demoConfig 10 0 (by decide), by
    have := simData_getElem demoConfig 10 1 (by decide)
    exact this,
   C6_balance_chain demoConfig 10 0 _ _ _
     (simData_getElem demoConfig 10 0 (by decide))
     (simData_getElem demoConfig 10 1 (by decide))
     (simData_getElem demoConfig 10 0 (by decide))⟩

/-- C7: in every year of every simulation run the safety-net top-up is
nonnegative, and in every year with a strictly positive top-up the closing
balance is at least the safety-net target. -/
theorem C7_safety_net_topup (cfg : Config) (fees : ℚ) (r : YearRecord)
    (h : r ∈ (simulate_with_monthly_fees cfg fees).1) :
    0 ≤ r.safety_net_top_up ∧
    (0 < r.safety_net_top_up → r.safety_net_target ≤ r.closing_balance) := by
  obtain ⟨y, hy, hr⟩ := simData_mem_inv cfg fees r h
  subst hr
  constructor
  · rw [recAt_topup]
    exact le_max_left 0 _
  · intro _
    rw [recAt_closing_max]
    exact le_max_right _ _

theorem C7_witness :
    recAt demoConfig (futureExpensesByYear demoConfig) 10 0 ∈
        (simulate_with_monthly_fees demoConfig 10).1 ∧
    (0 ≤ (recAt demoConfig (futureExpensesByYear demoConfig) 10 0).safety_net_top_up ∧
      (0 < (recAt demoConfig (futureExpensesByYear demoConfig) 10 0).safety_net_top_up →
        (recAt demoConfig (futureExpensesByYear demoConfig) 10 0).safety_net_target ≤
          (recAt demoConfig (futureExpensesByYear demoConfig) 10 0).closing_balance)) :=
  ⟨simData_mem demoConfig 10 0 (by decide),
   C7_safety_net_topup demoConfig 10 _ (simData_mem demoConfig 10 0 (by decide))⟩

/-- C2 (amended): the safety-net target recorded for a year equals the
safety-net percentage times (that year's inflated base maintenance + that
year's total expenses + that year's loan repayments) — the source passes the
year's expenses, not the reserve contribution, to the target
(workbook.py line 445). -/
theorem C2_safety_net_target (cfg : Config) (fees : ℚ) (y : ℕ) (r : YearRecord)
    (h : (simulate_with_monthly_fees cfg fees).1[y]? = some r) :
    r.safety_net_target =
      (r.base_maintenance + r.future_expenses_in_year + r.loan_repayments) *
        (cfg.safety_net_percentage / 100) := by
  obtain ⟨hy, hr⟩ := simData_getElem_inv cfg fees y r h
  subst hr
  rw [recAt_target]
  rfl

theorem C2_witness :
    (simulate_with_monthly_fees demoConfig 10).1[0]? =
        some (recAt demoConfig (futureExpensesByYear demoConfig) 10 0) ∧
    (recAt demoConfig (futureExpensesByYear demoConfig) 10 0).safety_net_target =
      ((recAt demoConfig (futureExpensesByYear demoConfig) 10 0).base_maintenance +
        (recAt demoConfig (futureExpensesByYear demoConfig) 10 0).future_expenses_in_year +
        (recAt demoConfig (futureExpensesByYear demoConfig) 10 0).loan_repayments) *
        (demoConfig.safety_net_percentage / 100) :=
  ⟨simData_getElem demoConfig 10 0 (by decide),
   C2_safety_net_target demoConfig 10 0 _ (simData_getElem demoConfig 10 0 (by decide))⟩

/-- A two-year configuration with one large expense in year 0, on which the
safety-net target visibly differs from a percentage of total collections. -/
def c2Config : Config :=
  { starting_balance := 0, monthly_fees := 10, housing := 1, fiscal_year := 0,
    period := 2, inflation_rate := 0, loan_threshold_percentage := 70,
    loan_rate_percentage := 10, loan_term_years_model := 5,
    safety_net_percentage := 10, optimize_flag := true, min_reserve_balance := 0,
    optimization_tolerance := 0,
    model_items := [{ name := "Paint", redundancy := 0, remaining_life := 0,
                      cost := 8, is_sirs := false, type := "Large" }] }

theorem c2_sd0 : spending_data_at c2Config.model_items c2Config.period 0 =
    [{ name := "Paint", cost := 8, year := 0, redundancy_at := 0,
       type := "Large", is_sirs := false }] := by
  simp only [spending_data_at, itemOccurrencePairs, itemRedundancies, c2Config]
  decide

theorem c2_sd1 : spending_data_at c2Config.model_items c2Config.period 1 = [] := by
  simp only [spending_data_at, itemOccurrencePairs, itemRedundancies, c2Config]
  decide

theorem c2_exp0 : get_expenses_with_loan_details c2Config 0 = (8, 8, 28/5, 12/5) := by
  unfold get_expenses_with_loan_details
  rw [if_pos (by norm_num [c2Config])]
  show (spending_data_at c2Config.model_items c2Config.period 0).foldl
      (expenseAcc c2Config 0) (0, 0, 0, 0) = (8, 8, 28/5, 12/5)
  rw [c2_sd0]
  simp only [List.foldl_cons, List.foldl_nil, expenseAcc, isLargeType_Large, if_true]
  norm_num [c2Config]

theorem c2_exp1 : get_expenses_with_loan_details c2Config 1 = (0, 0, 0, 0) := by
  unfold get_expenses_with_loan_details
  rw [if_pos (by norm_num [c2Config])]
  show (spending_data_at c2Config.model_items c2Config.period 1).foldl
      (expenseAcc c2Config 1) (0, 0, 0, 0) = (0, 0, 0, 0)
  rw [c2_sd1]
  rfl

theorem c2_fut : futureExpensesByYear c2Config =
    [((0 : ℤ), (8 : ℚ), (8 : ℚ)), ((1 : ℤ), 0, 0)] := by
  unfold futureExpensesByYear
  rw [show c2Config.period = 2 from rfl, show (2 : ℕ) = 1 + 1 from rfl,
    List.range_succ, List.range_succ, List.range_zero]
  simp only [List.nil_append, List.singleton_append, List.map_cons, List.map_nil]
  rw [show c2Config.fiscal_year + ((0 : ℕ) : ℤ) = 0 from by norm_num [c2Config],
    show c2Config.fiscal_year + ((1 : ℕ) : ℤ) = 1 from by norm_num [c2Config],
    c2_exp0, c2_exp1]

theorem c2_rc0 : calculate_reserve_contribution_for_future_expenses c2Config
    (futureExpensesByYear c2Config) 0 = 0 := by
  rw [c2_fut]
  unfold calculate_reserve_contribution_for_future_expenses
  norm_num

/-- C2 counterexample: in year 0 of the `c2Config` run the recorded
safety-net target is the percentage of (base maintenance + this year's
expenses + loan repayments), which differs from the percentage of total
collections (base maintenance + reserve contribution + loan repayments):
the year-0 expenses are 8 while the reserve contribution is 0. -/
theorem C2_counterexample :
    ¬ (((simulate_with_monthly_fees c2Config 10).1.getD 0 dummyRecord).safety_net_target =
       (((simulate_with_monthly_fees c2Config 10).1.getD 0 dummyRecord).base_maintenance +
        ((simulate_with_monthly_fees c2Config 10).1.getD 0 dummyRecord).reserve_contribution +
        ((simulate_with_monthly_fees c2Config 10).1.getD 0 dummyRecord).loan_repayments) *
         (c2Config.safety_net_percentage / 100)) := by
  have hg : (simulate_with_monthly_fees c2Config 10).1.getD 0 dummyRecord =
      recAt c2Config (futureExpensesByYear c2Config) 10 0 := by
    rw [List.getD_eq_getElem?_getD, simData_getElem c2Config 10 0 (by norm_num [c2Config])]
    rfl
  rw [hg, recAt_target, recAt_rc, recAt_expenses,
    show c2Config.fiscal_year + ((0 : ℕ) : ℤ) = 0 from by norm_num [c2Config],
    c2_rc0, c2_exp0]
  unfold calculate_safety_net_target
  set b := (recAt c2Config (futureExpensesByYear c2Config) 10 0).base_maintenance
  set l := (recAt c2Config (futureExpensesByYear c2Config) 10 0).loan_repayments
  intro h
  rw [show c2Config.safety_net_percentage = 10 from rfl] at h
  norm_num at h

/-- C8: in every year `y` of a run, a loan of the ledger (as accumulated
through year `y`'s issuance) contributes its annual payment to that year's
loan repayments iff `origination ≤ y < origination + term`, and the recorded
`active_loans_count` is the number of ledger loans satisfying that same
condition. -/
theorem C8_active_loans (cfg : Config) (fees : ℚ) (y : ℕ) (r : YearRecord)
    (h : (simulate_with_monthly_fees cfg fees).1[y]? = some r) :
    r.loan_repayments =
      ((ledgerUpTo cfg (y + 1)).map (fun l =>
        if l.start_year ≤ r.year ∧ r.year < l.start_year + (l.term : ℤ) then
          get_loan_payments l.principal cfg.loan_rate_percentage l.term
        else 0)).sum ∧
    r.active_loans_count =
      ((ledgerUpTo cfg (y + 1)).filter (fun l =>
        decide (l.start_year ≤ r.year ∧ r.year < l.start_year + (l.term : ℤ)))).length := by
  obtain ⟨hy, hr⟩ := simData_getElem_inv cfg fees y r h
  subst hr
  constructor
  · simp only [recAt_year]
    rw [recAt_repay]
    unfold calculate_loan_payments_for_year
    rw [foldl_guard_add
      (fun (loan : Loan) => loan.start_year ≤ cfg.fiscal_year + (y : ℤ) ∧
        cfg.fiscal_year + (y : ℤ) < loan.start_year + (loan.term : ℤ))
      (fun (loan : Loan) =>
        get_loan_payments loan.principal cfg.loan_rate_percentage loan.term),
      zero_add]
  · simp only [recAt_year]
    rw [recAt_count, List.countP_eq_length_filter]

theorem C8_witness :
    (simulate_with_monthly_fees demoConfig 10).1[0]? =
        some (recAt demoConfig (futureExpensesByYear demoConfig) 10 0) ∧
    ((recAt demoConfig (futureExpensesByYear demoConfig) 10 0).loan_repayments =
      ((ledgerUpTo demoConfig (0 + 1)).map (fun l =>
        if l.start_year ≤ (recAt demoConfig (futureExpensesByYear demoConfig) 10 0).year ∧
            (recAt demoConfig (futureExpensesByYear demoConfig) 10 0).year <
              l.start_year + (l.term : ℤ) then
          get_loan_payments l.principal demoConfig.loan_rate_percentage l.term
        else 0)).sum ∧
    (recAt demoConfig (futureExpensesByYear demoConfig) 10 0).active_loans_count =
      ((ledgerUpTo demoConfig (0 + 1)).filter (fun l =>
        decide (l.start_year ≤ (recAt demoConfig (futureExpensesByYear demoConfig) 10 0).year ∧
          (recAt demoConfig (futureExpensesByYear demoConfig) 10 0).year <
            l.start_year + (l.term : ℤ)))).length) :=
  ⟨simData_getElem demoConfig 10 0 (by decide),
   C8_active_loans demoConfig 10 0 _ (simData_getElem demoConfig 10 0 (by decide))⟩

/-- C9: the reserve contribution recorded for a year equals the sum over the
future-expense table of `largeExpense(y') * loanThresholdPct/100 /
max(y' - y, 1)` over entries with `y' > y` and a positive large expense;
entries for the current year or earlier contribute nothing. -/
theorem C9_reserve_contribution (cfg : Config) (fees : ℚ) (y : ℕ) (r : YearRecord)
    (h : (simulate_with_monthly_fees cfg fees).1[y]? = some r) :
    r.reserve_contribution =
      ((futureExpensesByYear cfg).map (fun e =>
        if r.year < e.1 ∧ 0 < e.2.1 then
          e.2.1 * (cfg.loan_threshold_percentage / 100) /
            ((max (e.1 - r.year) 1 : ℤ) : ℚ)
        else 0)).sum := by
  obtain ⟨hy, hr⟩ := simData_getElem_inv cfg fees y r h
  subst hr
  simp only [recAt_year]
  rw [recAt_rc]
  unfold calculate_reserve_contribution_for_future_expenses
  rw [foldl_guard_add
    (fun (e : ℤ × ℚ × ℚ) => cfg.fiscal_year + (y : ℤ) < e.1 ∧ 0 < e.2.1)
    (fun (e : ℤ × ℚ × ℚ) => e.2.1 * (cfg.loan_threshold_percentage / 100) /
      ((max (e.1 - (cfg.fiscal_year + (y : ℤ))) 1 : ℤ) : ℚ)),
    zero_add]

theorem C9_witness :
    (simulate_with_monthly_fees demoConfig 10).1[0]? =
        some (recAt demoConfig (futureExpensesByYear demoConfig) 10 0) ∧
    (recAt demoConfig (futureExpensesByYear demoConfig) 10 0).reserve_contribution =
      ((futureExpensesByYear demoConfig).map (fun e =>
        if (recAt demoConfig (futureExpensesByYear demoConfig) 10 0).year < e.1 ∧
            0 < e.2.1 then
          e.2.1 * (demoConfig.loan_threshold_percentage / 100) /
            ((max (e.1 - (recAt demoConfig (futureExpensesByYear demoConfig) 10 0).year) 1 :
              ℤ) : ℚ)
        else 0)).sum :=
  ⟨simData_getElem demoConfig 10 0 (by decide),
   C9_reserve_contribution demoConfig 10 0 _ (simData_getElem demoConfig 10 0 (by decide))⟩

/-- The order on reported minimum balances, with `none` standing for the
initial `float('inf')`. -/
def optionLe (a b : Option ℚ) : Prop :=
  match a, b with
  | _, none => True
  | none, some _ => False
  | some x, some y => x ≤ y

/-- Lockstep relation between the running minima of two runs of the same
length: both still infinite, or both attained with the first at most the
second. -/
def minRel (a b : Option ℚ) : Prop :=
  match a, b with
  | none, none => True
  | some x, some y => x ≤ y
  | _, _ => False

theorem minRel_optionLe (a b : Option ℚ) (h : minRel a b) : optionLe a b := by
  cases a <;> cases b <;> simp_all [minRel, optionLe]

theorem minRel_optionMin (m m' : Option ℚ) (c c' : ℚ)
    (hm : minRel m m') (hc : c ≤ c') :
    minRel (optionMin m c) (optionMin m' c') := by
  cases m with
  | none =>
    cases m' with
    | none => exact hc
    | some x' => exact absurd hm (by simp [minRel])
  | some x =>
    cases m' with
    | none => exact absurd hm (by simp [minRel])
    | some x' => exact min_le_min hm hc

/-- One-year monotonicity: with a nonnegative housing factor, inflation rate
and safety-net percentage, a higher fee and a higher opening balance give a
closing balance at least as high (expenses, reserve contributions and loan
repayments do not depend on the fee). -/
theorem recAt_closing_mono (cfg : Config) (fut : List (ℤ × ℚ × ℚ)) (F F' : ℚ)
    (n : ℕ) (hh : 0 ≤ cfg.housing) (hi : 0 ≤ cfg.inflation_rate)
    (hs : 0 ≤ cfg.safety_net_percentage) (hF : F ≤ F')
    (hb : (runSim cfg fut F n).balance ≤ (runSim cfg fut F' n).balance) :
    (recAt cfg fut F n).closing_balance ≤ (recAt cfg fut F' n).closing_balance := by
  have hmul : (0 : ℚ) ≤ cfg.housing * 12 * (1 + cfg.inflation_rate / 100) ^ n := by
    have h1 : (0 : ℚ) ≤ 1 + cfg.inflation_rate / 100 := by
      have := div_nonneg hi (by norm_num : (0 : ℚ) ≤ 100)
      linarith
    exact mul_nonneg (mul_nonneg hh (by norm_num)) (pow_nonneg h1 n)
  have hbase : (recAt cfg fut F n).base_maintenance ≤
      (recAt cfg fut F' n).base_maintenance := by
    rw [recAt_base, recAt_base]
    nlinarith [mul_nonneg (sub_nonneg.mpr hF) hmul]
  have hexp : (recAt cfg fut F n).future_expenses_in_year =
      (recAt cfg fut F' n).future_expenses_in_year := by
    rw [recAt_expenses, recAt_expenses]
  have hrc : (recAt cfg fut F n).reserve_contribution =
      (recAt cfg fut F' n).reserve_contribution := by
    rw [recAt_rc, recAt_rc]
  have hrep : (recAt cfg fut F n).loan_repayments =
      (recAt cfg fut F' n).loan_repayments := by
    rw [recAt_repay, recAt_repay]
  have hprov : (recAt cfg fut F n).provisional_end_balance ≤
      (recAt cfg fut F' n).provisional_end_balance := by
    rw [recAt_provisional, recAt_provisional, recAt_collections, recAt_collections,
      recAt_opening, recAt_opening]
    linarith
  have htgt : (recAt cfg fut F n).safety_net_target ≤
      (recAt cfg fut F' n).safety_net_target := by
    rw [recAt_target, recAt_target]
    unfold calculate_safety_net_target
    have hq : (0 : ℚ) ≤ cfg.safety_net_percentage / 100 :=
      div_nonneg hs (by norm_num)
    exact mul_le_mul_of_nonneg_right (by linarith) hq
  rw [recAt_closing_max, recAt_closing_max]
  exact max_le_max hprov htgt

/-- Lockstep invariant: a higher fee never yields a smaller balance or
running minimum, and the loan ledger is identical. -/
theorem runSim_mono (cfg : Config) (fut : List (ℤ × ℚ × ℚ)) (F F' : ℚ)
    (hh : 0 ≤ cfg.housing) (hi : 0 ≤ cfg.inflation_rate)
    (hs : 0 ≤ cfg.safety_net_percentage) (hF : F ≤ F') (n : ℕ) :
    (runSim cfg fut F n).balance ≤ (runSim cfg fut F' n).balance ∧
    minRel (runSim cfg fut F n).min_balance (runSim cfg fut F' n).min_balance := by
  induction n with
  | zero =>
    rw [runSim_zero cfg fut F, runSim_zero cfg fut F']
    exact ⟨le_refl _, trivial⟩
  | succ n ih =>
    obtain ⟨hb, hm⟩ := ih
    have hclose := recAt_closing_mono cfg fut F F' n hh hi hs hF hb
    constructor
    · rw [runSim_balance_succ, runSim_balance_succ]
      exact hclose
    · rw [runSim_succ, runSim_succ, simStep_min, simStep_min]
      exact minRel_optionMin _ _ _ _ hm hclose

/-- C4: with all other inputs fixed (and the configured housing factor,
inflation rate and safety-net percentage nonnegative, as they are in the
source configuration), raising the monthly fee never decreases the reported
minimum closing balance. -/
theorem C4_min_balance_monotone (cfg : Config) (F F' : ℚ)
    (hh : 0 ≤ cfg.housing) (hi : 0 ≤ cfg.inflation_rate)
    (hs : 0 ≤ cfg.safety_net_percentage) (hFF : F < F') :
    optionLe (simulate_with_monthly_fees cfg F).2.1
      (simulate_with_monthly_fees cfg F').2.1 := by
  have h := runSim_mono cfg (futureExpensesByYear cfg) F F' hh hi hs
    (le_of_lt hFF) cfg.period
  exact minRel_optionLe _ _ h.2

theorem C4_witness :
    0 ≤ sourceConfig.housing ∧ 0 ≤ sourceConfig.inflation_rate ∧
    0 ≤ sourceConfig.safety_net_percentage ∧ (100 : ℚ) < 200 ∧
    optionLe (simulate_with_monthly_fees sourceConfig 100).2.1
      (simulate_with_monthly_fees sourceConfig 200).2.1 :=
  ⟨by norm_num [sourceConfig], by norm_num [sourceConfig],
   by norm_num [sourceConfig], by norm_num,
   C4_min_balance_monotone sourceConfig 100 200 (by norm_num [sourceConfig])
     (by norm_num [sourceConfig]) (by norm_num [sourceConfig]) (by norm_num)⟩

/-- Nonnegativity of the configured rates, factors and catalog costs; the
spec (section 7) requires rejecting negative rates and costs, and the source
configuration satisfies all of these. -/
def NiceConfig (cfg : Config) : Prop :=
  0 ≤ cfg.housing ∧ 0 ≤ cfg.inflation_rate ∧
  0 ≤ cfg.loan_threshold_percentage ∧ 0 ≤ cfg.loan_rate_percentage ∧
  0 ≤ cfg.safety_net_percentage ∧ ∀ it ∈ cfg.model_items, 0 ≤ it.cost

theorem spending_cost_nonneg (items : List ModelItem) (H y : ℕ)
    (h : ∀ it ∈ items, 0 ≤ it.cost) (s : SpendingItem)
    (hs : s ∈ spending_data_at items H y) : 0 ≤ s.cost := by
  unfold spending_data_at at hs
  rw [List.mem_flatMap] at hs
  obtain ⟨it, hit, hmem⟩ := hs
  rw [List.mem_map] at hmem
  obtain ⟨p, _, rfl⟩ := hmem
  exact h it hit

theorem expense_foldl_nonneg (cfg : Config) (idx : ℕ)
    (hi : 0 ≤ cfg.inflation_rate) (hthr : 0 ≤ cfg.loan_threshold_percentage) :
    ∀ (l : List SpendingItem) (acc : ℚ × ℚ × ℚ × ℚ),
      (∀ s ∈ l, 0 ≤ s.cost) → 0 ≤ acc.1 → 0 ≤ acc.2.1 → 0 ≤ acc.2.2.1 →
      0 ≤ (l.foldl (expenseAcc cfg idx) acc).1 ∧
      0 ≤ (l.foldl (expenseAcc cfg idx) acc).2.1 ∧
      0 ≤ (l.foldl (expenseAcc cfg idx) acc).2.2.1 := by
  have hinf : (0 : ℚ) ≤ 1 + cfg.inflation_rate / 100 := by
    have := div_nonneg hi (by norm_num : (0 : ℚ) ≤ 100)
    linarith
  intro l
  induction l with
  | nil => intro acc _ h1 h2 h3; exact ⟨h1, h2, h3⟩
  | cons s ss ih =>
    intro acc hc h1 h2 h3
    have hcost : 0 ≤ s.cost := hc s (List.mem_cons_self s ss)
    have hic : 0 ≤ s.cost * (1 + cfg.inflation_rate / 100) ^ idx :=
      mul_nonneg hcost (pow_nonneg hinf idx)
    have hla : 0 ≤ s.cost * (1 + cfg.inflation_rate / 100) ^ idx *
        (cfg.loan_threshold_percentage / 100) :=
      mul_nonneg hic (div_nonneg hthr (by norm_num))
    rw [List.foldl_cons]
    cases hB : isLargeType s.type with
    | true =>
      refine ih _ (fun x hx => hc x (List.mem_cons_of_mem s hx)) ?_ ?_ ?_ <;>
        simp only [expenseAcc, hB, if_true] <;> positivity
    | false =>
      refine ih _ (fun x hx => hc x (List.mem_cons_of_mem s hx)) ?_ ?_ ?_ <;>
        simp only [expenseAcc, hB, Bool.false_eq_true, if_false] <;> positivity

theorem get_expenses_nonneg (cfg : Config) (year : ℤ)
    (hi : 0 ≤ cfg.inflation_rate) (hthr : 0 ≤ cfg.loan_threshold_percentage)
    (hcost : ∀ it ∈ cfg.model_items, 0 ≤ it.cost) :
    0 ≤ (get_expenses_with_loan_details cfg year).1 ∧
    0 ≤ (get_expenses_with_loan_details cfg year).2.1 ∧
    0 ≤ (get_expenses_with_loan_details cfg year).2.2.1 := by
  unfold get_expenses_with_loan_details
  by_cases h : 0 ≤ year - cfg.fiscal_year ∧ year - cfg.fiscal_year < (cfg.period : ℤ)
  · rw [if_pos h]
    exact expense_foldl_nonneg cfg _ hi hthr _ _
      (fun s hs => spending_cost_nonneg _ _ _ hcost s hs)
      (le_refl 0) (le_refl 0) (le_refl 0)
  · rw [if_neg h]
    norm_num

theorem loan_payment_nonneg (p r : ℚ) (t : ℕ) (hp : 0 ≤ p) (hr : 0 ≤ r) :
    0 ≤ get_loan_payments p r t := by
  unfold get_loan_payments calculate_monthly_loan_payment
  by_cases h : p = 0 ∨ r = 0
  · rw [if_pos h]
    norm_num
  · rw [if_neg h]
    have hm : (0 : ℚ) ≤ r / 100 / 12 := by positivity
    have h1 : (1 : ℚ) ≤ 1 + r / 100 / 12 := by linarith
    have hden : (0 : ℚ) ≤ (1 + r / 100 / 12) ^ (t * 12) - 1 :=
      sub_nonneg.mpr (one_le_pow₀ h1)
    have hnum : (0 : ℚ) ≤ p * (r / 100 / 12) * (1 + r / 100 / 12) ^ (t * 12) :=
      mul_nonneg (mul_nonneg hp hm) (pow_nonneg (by linarith) _)
    have := div_nonneg hnum hden
    linarith

theorem ledger_principal_nonneg (cfg : Config) (n : ℕ) (l : Loan)
    (h : l ∈ ledgerUpTo cfg n) : 0 ≤ l.principal := by
  unfold ledgerUpTo at h
  rw [List.mem_flatMap] at h
  obtain ⟨y, _, hmem⟩ := h
  unfold loanForYear at hmem
  by_cases hp : 0 < (get_expenses_with_loan_details cfg (cfg.fiscal_year + (y : ℤ))).2.2.1
  · rw [if_pos hp] at hmem
    rw [List.mem_singleton] at hmem
    subst hmem
    exact le_of_lt hp
  · rw [if_neg hp] at hmem
    exact absurd hmem (List.not_mem_nil _)

theorem repayments_nonneg (cfg : Config) (loans : List Loan) (year : ℤ)
    (hr : 0 ≤ cfg.loan_rate_percentage)
    (hl : ∀ l ∈ loans, 0 ≤ l.principal) :
    0 ≤ calculate_loan_payments_for_year cfg loans year := by
  unfold calculate_loan_payments_for_year
  rw [foldl_guard_add
    (fun (loan : Loan) => loan.start_year ≤ year ∧
      year < loan.start_year + (loan.term : ℤ))
    (fun (loan : Loan) =>
      get_loan_payments loan.principal cfg.loan_rate_percentage loan.term),
    zero_add]
  apply List.sum_nonneg
  intro x hx
  rw [List.mem_map] at hx
  obtain ⟨loan, hloan, rfl⟩ := hx
  by_cases hcond : loan.start_year ≤ year ∧ year < loan.start_year + (loan.term : ℤ)
  · rw [if_pos hcond]
    exact loan_payment_nonneg _ _ _ (hl loan hloan) hr
  · rw [if_neg hcond]

theorem rc_nonneg (cfg : Config) (fut : List (ℤ × ℚ × ℚ)) (year : ℤ)
    (hthr : 0 ≤ cfg.loan_threshold_percentage) :
    0 ≤ calculate_reserve_contribution_for_future_expenses cfg fut year := by
  unfold calculate_reserve_contribution_for_future_expenses
  rw [foldl_guard_add
    (fun (e : ℤ × ℚ × ℚ) => year < e.1 ∧ 0 < e.2.1)
    (fun (e : ℤ × ℚ × ℚ) => e.2.1 * (cfg.loan_threshold_percentage / 100) /
      ((max (e.1 - year) 1 : ℤ) : ℚ)),
    zero_add]
  apply List.sum_nonneg
  intro x hx
  rw [List.mem_map] at hx
  obtain ⟨e, _, rfl⟩ := hx
  by_cases hcond : year < e.1 ∧ 0 < e.2.1
  · rw [if_pos hcond]
    have hm : (0 : ℚ) ≤ ((max (e.1 - year) 1 : ℤ) : ℚ) := by
      rw [Int.cast_nonneg]
      exact le_trans (by norm_num) (le_max_right _ 1)
    exact div_nonneg
      (mul_nonneg (le_of_lt hcond.2) (div_nonneg hthr (by norm_num))) hm
  · rw [if_neg hcond]

/-- With nonnegative configuration data and a nonnegative fee, every year's
closing balance is at least the (nonnegative) safety-net target. -/
theorem recAt_closing_nonneg (cfg : Config) (fees : ℚ) (y : ℕ)
    (hnice : NiceConfig cfg) (hfees : 0 ≤ fees) :
    0 ≤ (recAt cfg (futureExpensesByYear cfg) fees y).closing_balance := by
  obtain ⟨hh, hi, hthr, hrate, hsnp, hcost⟩ := hnice
  have hinf : (0 : ℚ) ≤ 1 + cfg.inflation_rate / 100 := by
    have := div_nonneg hi (by norm_num : (0 : ℚ) ≤ 100)
    linarith
  have hbase : 0 ≤ (recAt cfg (futureExpensesByYear cfg) fees y).base_maintenance := by
    rw [recAt_base]
    exact mul_nonneg (mul_nonneg (mul_nonneg hfees hh) (by norm_num))
      (pow_nonneg hinf y)
  have hexp : 0 ≤ (recAt cfg (futureExpensesByYear cfg) fees y).future_expenses_in_year := by
    rw [recAt_expenses]
    exact (get_expenses_nonneg cfg _ hi hthr hcost).1
  have hrep : 0 ≤ (recAt cfg (futureExpensesByYear cfg) fees y).loan_repayments := by
    rw [recAt_repay]
    exact repayments_nonneg cfg _ _ hrate
      (fun l hl => ledger_principal_nonneg cfg _ l hl)
  have htgt : 0 ≤ (recAt cfg (futureExpensesByYear cfg) fees y).safety_net_target := by
    rw [recAt_target]
    unfold calculate_safety_net_target
    exact mul_nonneg (by linarith) (div_nonneg hsnp (by norm_num))
  rw [recAt_closing_max]
  exact le_trans htgt (le_max_right _ _)

/-- Running minimum and deficit invariants: every attained minimum is a
closing balance, hence nonnegative; with a zero reserve floor no deficit is
ever accumulated. -/
theorem runSim_nonneg_invariants (cfg : Config) (fees : ℚ)
    (hnice : NiceConfig cfg) (hfees : 0 ≤ fees) (n : ℕ) :
    (∀ m, (runSim cfg (futureExpensesByYear cfg) fees n).min_balance = some m →
      0 ≤ m) ∧
    (cfg.min_reserve_balance = 0 →
      (runSim cfg (futureExpensesByYear cfg) fees n).total_deficits = 0) := by
  induction n with
  | zero => exact ⟨fun m hm => Option.noConfusion hm, fun _ => rfl⟩
  | succ n ih =>
    obtain ⟨ihm, ihd⟩ := ih
    have hclose := recAt_closing_nonneg cfg fees n hnice hfees
    constructor
    · intro m hm
      rw [runSim_succ, simStep_min] at hm
      revert hm
      cases hmin : (runSim cfg (futureExpensesByYear cfg) fees n).min_balance with
      | none =>
        intro hm
        unfold optionMin at hm
        injection hm with hm
        rw [← hm]
        exact hclose
      | some m0 =>
        intro hm
        unfold optionMin at hm
        injection hm with hm
        rw [← hm]
        exact le_min (ihm m0 hmin) hclose
    · intro hfloor
      rw [runSim_succ, simStep_deficits, ihd hfloor, hfloor, zero_add, if_neg]
      push_neg
      exact hclose

/-- C10: with a nonnegative fee and nonnegative configuration data, every
year's closing balance equals `max(provisional end balance, safety-net
target)` and is nonnegative; hence with a reserve floor of 0 (as configured)
a run reports zero total deficits, and the optimizer's initial feasibility
check succeeds so `optimize_monthly_fees` returns the baseline fee
unchanged. -/
theorem C10_always_feasible (cfg : Config) (fees : ℚ)
    (hnice : NiceConfig cfg) (hfees : 0 ≤ fees) :
    (∀ r ∈ (simulate_with_monthly_fees cfg fees).1,
      r.closing_balance = max r.provisional_end_balance r.safety_net_target ∧
      0 ≤ r.closing_balance) ∧
    (cfg.min_reserve_balance = 0 →
      (simulate_with_monthly_fees cfg fees).2.2 = 0) ∧
    (cfg.min_reserve_balance = 0 → 0 ≤ cfg.optimization_tolerance →
      cfg.optimize_flag = true → 0 ≤ cfg.monthly_fees →
      optimize_monthly_fees cfg = cfg.monthly_fees) := by
  refine ⟨?_, ?_, ?_⟩
  · intro r hr
    obtain ⟨y, hy, hr⟩ := simData_mem_inv cfg fees r hr
    subst hr
    exact ⟨recAt_closing_max cfg _ fees y, recAt_closing_nonneg cfg fees y hnice hfees⟩
  · intro hfloor
    exact (runSim_nonneg_invariants cfg fees hnice hfees cfg.period).2 hfloor
  · intro hfloor htol hflag hbase
    have hfeas : simFeasible cfg cfg.monthly_fees = true := by
      have hinv := runSim_nonneg_invariants cfg cfg.monthly_fees hnice hbase cfg.period
      have hdef0 : (simulate_with_monthly_fees cfg cfg.monthly_fees).2.2 = 0 :=
        hinv.2 hfloor
      have heq : simFeasible cfg cfg.monthly_fees =
          isFeasibleB cfg (simulate_with_monthly_fees cfg cfg.monthly_fees).2.1
            (simulate_with_monthly_fees cfg cfg.monthly_fees).2.2 := rfl
      rw [heq, hdef0]
      cases hmin : (simulate_with_monthly_fees cfg cfg.monthly_fees).2.1 with
      | none =>
        unfold isFeasibleB
        rw [decide_eq_true htol]
        rfl
      | some m =>
        unfold isFeasibleB
        rw [decide_eq_true htol]
        show (decide (cfg.min_reserve_balance ≤ m) && true) = true
        rw [decide_eq_true (show cfg.min_reserve_balance ≤ m from by
          rw [hfloor]; exact hinv.1 m hmin)]
        rfl
    unfold optimize_monthly_fees
    rw [hflag, if_neg (by norm_num), hfeas]
    rfl

theorem C10_witness :
    NiceConfig sourceConfig ∧ 0 ≤ sourceConfig.monthly_fees ∧
    optimize_monthly_fees sourceConfig = sourceConfig.monthly_fees := by
  have hnice : NiceConfig sourceConfig := by
    refine ⟨by norm_num [sourceConfig], by norm_num [sourceConfig],
      by norm_num [sourceConfig], by norm_num [sourceConfig],
      by norm_num [sourceConfig], ?_⟩
    intro it hit
    simp only [sourceConfig, MODEL_ITEMS, List.mem_cons, List.not_mem_nil,
      or_false] at hit
    rcases hit with rfl | rfl | rfl | rfl <;> norm_num
  have hfees : 0 ≤ sourceConfig.monthly_fees := by norm_num [sourceConfig]
  exact ⟨hnice, hfees,
    (C10_always_feasible sourceConfig sourceConfig.monthly_fees hnice hfees).2.2
      rfl (by norm_num [sourceConfig]) rfl hfees⟩

theorem optLoop_succ (cfg : Config) (fuel : ℕ) (lower_bound upper_bound : ℚ) :
    optLoop cfg (fuel + 1) lower_bound upper_bound =
      if 1 < upper_bound - lower_bound then
        if simFeasible cfg ((lower_bound + upper_bound) / 2) then
          optLoop cfg fuel lower_bound ((lower_bound + upper_bound) / 2)
        else optLoop cfg fuel ((lower_bound + upper_bound) / 2) upper_bound
      else (lower_bound, upper_bound) := rfl

/-- The bisection loop's invariant: it returns either the initial upper bound
(never tested) or an upper bound that tested feasible — upper bounds only
ever move to midpoints that satisfied the feasibility check. -/
theorem optLoop_upper (cfg : Config) :
    ∀ (fuel : ℕ) (lower_bound upper_bound : ℚ),
      (optLoop cfg fuel lower_bound upper_bound).2 = upper_bound ∨
      simFeasible cfg (optLoop cfg fuel lower_bound upper_bound).2 = true := by
  intro fuel
  induction fuel with
  | zero => intro lo hi; exact Or.inl rfl
  | succ fuel ih =>
    intro lo hi
    rw [optLoop_succ]
    by_cases h1 : 1 < hi - lo
    · rw [if_pos h1]
      by_cases h2 : simFeasible cfg ((lo + hi) / 2) = true
      · rw [if_pos h2]
        rcases ih lo ((lo + hi) / 2) with h | h
        · right
          rw [h]
          exact h2
        · right
          exact h
      · rw [if_neg h2]
        exact ih ((lo + hi) / 2) hi
    · rw [if_neg h1]
      exact Or.inl rfl

/-- C3 (amended): when optimization is enabled, the optimizer returns the
baseline fee unchanged if the baseline already satisfies the feasibility
predicate; otherwise it returns the upper bound of the bisection of
`[0.5·F₀, 3·F₀]` (at most 20 iterations, stopping when the bracket width is
at most 1), and that returned bound either tested feasible at some iteration
or is the never-tested initial upper bound `3·F₀` — feasibility of the
result is NOT guaranteed when no tested fee is feasible. -/
theorem C3_optimizer (cfg : Config) (hflag : cfg.optimize_flag = true) :
    (simFeasible cfg cfg.monthly_fees = true →
      optimize_monthly_fees cfg = cfg.monthly_fees) ∧
    (simFeasible cfg cfg.monthly_fees = false →
      optimize_monthly_fees cfg =
        (optLoop cfg 20 (cfg.monthly_fees * (1 / 2)) (cfg.monthly_fees * 3)).2 ∧
      ((optLoop cfg 20 (cfg.monthly_fees * (1 / 2)) (cfg.monthly_fees * 3)).2 =
          cfg.monthly_fees * 3 ∨
        simFeasible cfg
          (optLoop cfg 20 (cfg.monthly_fees * (1 / 2)) (cfg.monthly_fees * 3)).2 =
          true)) := by
  have hopt : optimize_monthly_fees cfg =
      if simFeasible cfg cfg.monthly_fees then cfg.monthly_fees
      else (optLoop cfg 20 (cfg.monthly_fees * (1 / 2)) (cfg.monthly_fees * 3)).2 := by
    unfold optimize_monthly_fees
    rw [hflag, if_neg (by norm_num)]
  constructor
  · intro hf
    rw [hopt, if_pos hf]
  · intro hf
    rw [hopt, if_neg (by rw [hf]; norm_num)]
    exact ⟨rfl, optLoop_upper cfg 20 _ _⟩

theorem C3_witness :
    sourceConfig.optimize_flag = true ∧
    ((simFeasible sourceConfig sourceConfig.monthly_fees = true →
      optimize_monthly_fees sourceConfig = sourceConfig.monthly_fees) ∧
    (simFeasible sourceConfig sourceConfig.monthly_fees = false →
      optimize_monthly_fees sourceConfig =
        (optLoop sourceConfig 20 (sourceConfig.monthly_fees * (1 / 2))
          (sourceConfig.monthly_fees * 3)).2 ∧
      ((optLoop sourceConfig 20 (sourceConfig.monthly_fees * (1 / 2))
          (sourceConfig.monthly_fees * 3)).2 = sourceConfig.monthly_fees * 3 ∨
        simFeasible sourceConfig
          (optLoop sourceConfig 20 (sourceConfig.monthly_fees * (1 / 2))
            (sourceConfig.monthly_fees * 3)).2 = true))) :=
  ⟨rfl, C3_optimizer sourceConfig rfl⟩

/-- A one-year configuration with an empty catalog and an unreachable reserve
floor: no fee in the bracket is feasible, so the optimizer's returned upper
bound never tested feasible. -/
def infeasibleConfig : Config :=
  { starting_balance := 0, monthly_fees := 1, housing := 1, fiscal_year := 0,
    period := 1, inflation_rate := 0, loan_threshold_percentage := 70,
    loan_rate_percentage := 10, loan_term_years_model := 5,
    safety_net_percentage := 10, optimize_flag := true,
    min_reserve_balance := 1000000, optimization_tolerance := 0,
    model_items := [] }

theorem inf_exp (year : ℤ) :
    get_expenses_with_loan_details infeasibleConfig year = (0, 0, 0, 0) := by
  simp only [get_expenses_with_loan_details]
  split <;> rfl

theorem inf_fut : futureExpensesByYear infeasibleConfig = [((0 : ℤ), 0, 0)] := by
  unfold futureExpensesByYear
  rw [show infeasibleConfig.period = 1 from rfl, show (1 : ℕ) = 0 + 1 from rfl,
    List.range_succ, List.range_zero]
  simp only [List.nil_append, List.map_cons, List.map_nil]
  rw [inf_exp]
  rfl

theorem inf_min (f : ℚ) :
    (simulate_with_monthly_fees infeasibleConfig f).2.1 =
      some ((recAt infeasibleConfig (futureExpensesByYear infeasibleConfig) f
        0).closing_balance) := rfl

theorem inf_closing_le (f : ℚ) (_h0 : 0 ≤ f) (h1 : f ≤ 10) :
    (recAt infeasibleConfig (futureExpensesByYear infeasibleConfig) f
      0).closing_balance ≤ 120 := by
  have hbase : (recAt infeasibleConfig (futureExpensesByYear infeasibleConfig) f
      0).base_maintenance = 12 * f := by
    rw [recAt_base]
    norm_num [infeasibleConfig]
    ring
  have hexp : (recAt infeasibleConfig (futureExpensesByYear infeasibleConfig) f
      0).future_expenses_in_year = 0 := by
    rw [recAt_expenses, inf_exp]
  have hrep : (recAt infeasibleConfig (futureExpensesByYear infeasibleConfig) f
      0).loan_repayments = 0 := by
    rw [recAt_repay]
    have hledger : ledgerUpTo infeasibleConfig 1 = [] := by
      unfold ledgerUpTo loanForYear
      rw [show (1 : ℕ) = 0 + 1 from rfl, List.range_succ, List.range_zero]
      simp only [List.nil_append, List.flatMap_cons, List.flatMap_nil]
      rw [inf_exp]
      norm_num
    rw [hledger]
    rfl
  have hrc : (recAt infeasibleConfig (futureExpensesByYear infeasibleConfig) f
      0).reserve_contribution = 0 := by
    rw [recAt_rc, inf_fut]
    unfold calculate_reserve_contribution_for_future_expenses
    norm_num
  have hopen : (recAt infeasibleConfig (futureExpensesByYear infeasibleConfig) f
      0).opening_balance = 0 := by
    rw [recAt_opening]
    rfl
  have hprov : (recAt infeasibleConfig (futureExpensesByYear infeasibleConfig) f
      0).provisional_end_balance = 12 * f := by
    rw [recAt_provisional, recAt_collections, hbase, hexp, hrep, hrc, hopen]
    ring
  have htgt : (recAt infeasibleConfig (futureExpensesByYear infeasibleConfig) f
      0).safety_net_target = 12 * f * (10 / 100) := by
    rw [recAt_target, hbase, hexp, hrep]
    unfold calculate_safety_net_target
    rw [show infeasibleConfig.safety_net_percentage = 10 from rfl]
    ring
  rw [recAt_closing_max, hprov, htgt]
  rw [max_le_iff]
  constructor <;> linarith

theorem inf_infeasible (f : ℚ) (h0 : 0 ≤ f) (h1 : f ≤ 10) :
    simFeasible infeasibleConfig f = false := by
  have heq : simFeasible infeasibleConfig f =
      isFeasibleB infeasibleConfig
        (simulate_with_monthly_fees infeasibleConfig f).2.1
        (simulate_with_monthly_fees infeasibleConfig f).2.2 := rfl
  rw [heq, inf_min f]
  unfold isFeasibleB
  show (decide (infeasibleConfig.min_reserve_balance ≤ _) && _) = false
  rw [decide_eq_false (show ¬ infeasibleConfig.min_reserve_balance ≤
      (recAt infeasibleConfig (futureExpensesByYear infeasibleConfig) f
        0).closing_balance from by
    rw [show infeasibleConfig.min_reserve_balance = 1000000 from rfl]
    have := inf_closing_le f h0 h1
    linarith)]
  rfl

theorem inf_optLoop :
    (optLoop infeasibleConfig 20 (infeasibleConfig.monthly_fees * (1 / 2))
      (infeasibleConfig.monthly_fees * 3)).2 = 3 := by
  rw [show infeasibleConfig.monthly_fees * (1 / 2) = 1 / 2 from by
      norm_num [infeasibleConfig],
    show infeasibleConfig.monthly_fees * 3 = 3 from by norm_num [infeasibleConfig]]
  rw [show (20 : ℕ) = 19 + 1 from rfl, optLoop_succ, if_pos (by norm_num)]
  rw [show ((1 / 2 : ℚ) + 3) / 2 = 7 / 4 from by norm_num]
  rw [inf_infeasible (7 / 4) (by norm_num) (by norm_num), if_neg (by norm_num)]
  rw [show (19 : ℕ) = 18 + 1 from rfl, optLoop_succ, if_pos (by norm_num)]
  rw [show ((7 / 4 : ℚ) + 3) / 2 = 19 / 8 from by norm_num]
  rw [inf_infeasible (19 / 8) (by norm_num) (by norm_num), if_neg (by norm_num)]
  rw [show (18 : ℕ) = 17 + 1 from rfl, optLoop_succ, if_neg (by norm_num)]

/-- C3 counterexample: on `infeasibleConfig` no fee in the bracket is
feasible; the optimizer runs its bisection and returns the initial upper
bound `3·F₀ = 3`, which does not satisfy the feasibility predicate —
refuting the claim that the returned upper bound is always feasible. -/
theorem C3_counterexample :
    optimize_monthly_fees infeasibleConfig = 3 ∧
    simFeasible infeasibleConfig (optimize_monthly_fees infeasibleConfig) = false := by
  have hopt : optimize_monthly_fees infeasibleConfig = 3 := by
    unfold optimize_monthly_fees
    rw [show infeasibleConfig.optimize_flag = true from rfl, if_neg (by norm_num)]
    rw [inf_infeasible infeasibleConfig.monthly_fees
      (by norm_num [infeasibleConfig]) (by norm_num [infeasibleConfig])]
    rw [if_neg (by norm_num)]
    exact inf_optLoop
  refine ⟨hopt, ?_⟩
  rw [hopt]
  exact inf_infeasible 3 (by norm_num) (by norm_num)

end ReserveFunds
